import Mathlib

/-!
Verification of the pg-mirror repository (SistemasFortePlus/pg-mirror)
against its natural-language specification.

Shallow embedding of the Python sources:
* `pg_mirror/restore.py`  — the restore-result classifier inside `restore_backup`;
* `pg_mirror/hooks.py`    — `extrair_id_assinatura_do_nome_banco`, `gerar_nome_banco_dados`;
* `pg_mirror/history.py`  — `record_backup`, `update_backup`, `get_backup` over an
  in-memory model of the sqlite `backups` table;
* `pg_mirror/cli.py`      — the `mirror` workflow, with external collaborators
  (pg_dump/pg_restore processes, HTTP calls, the filesystem) supplied as oracle
  outcomes in an environment record.

Strings are modelled over their character sequences, with the text operations
(splitting, lowercasing, stripping) re-implemented by structural recursion on
`List Char` so that every definition evaluates inside the kernel; lowercasing
and character classes are ASCII, matching the Python code on the ASCII data
these paths handle.
-/

/-- Python `str.split(sep)` for a one-character separator: splits at every
occurrence, keeping empty pieces; always returns at least one piece. -/
def splitOnChar (sep : Char) : List Char → List (List Char)
  | [] => [[]]
  | c :: rest =>
    match splitOnChar sep rest with
    | [] => [[]]
    | g :: gs => if c = sep then [] :: g :: gs else (c :: g) :: gs

/-- ASCII lowercase of one character (Python `str.lower` restricted to ASCII). -/
def lowerChar (c : Char) : Char :=
  if 'A' ≤ c ∧ c ≤ 'Z' then Char.ofNat (c.toNat + 32) else c

/-- ASCII lowercase of a character sequence. -/
def lowerStr (cs : List Char) : List Char := cs.map lowerChar

/-- Python `needle in hay` substring test. -/
def substrIn (needle hay : List Char) : Bool :=
  hay.tails.any (fun t => needle.isPrefixOf t)

/-- One decimal digit value, ASCII. -/
def digitVal (c : Char) : Option Nat :=
  if c.isDigit then some (c.toNat - 48) else none

/-- Continuation of Python's integer-literal digit part: after a first digit has
been read, digits may continue, with single underscores allowed between digits. -/
def pyDigitpartAux : List Char → Nat → Option Nat
  | [], acc => some acc
  | '_' :: c :: rest, acc =>
    match digitVal c with
    | none => none
    | some d => pyDigitpartAux rest (acc * 10 + d)
  | '_' :: [], _ => none
  | c :: rest, acc =>
    match digitVal c with
    | none => none
    | some d => pyDigitpartAux rest (acc * 10 + d)

/-- Python's integer-literal digit part: `digit (["_"] digit)*`. -/
def pyDigitpart : List Char → Option Nat
  | [] => none
  | c :: rest =>
    match digitVal c with
    | none => none
    | some d => pyDigitpartAux rest d

/-- Python `str.strip()` (ASCII whitespace at both ends). -/
def pyStrip (cs : List Char) : List Char :=
  ((cs.dropWhile Char.isWhitespace).reverse.dropWhile Char.isWhitespace).reverse

/-- Python `int(s)`: strip surrounding whitespace, optional sign, then a digit
part (underscore separators allowed); `none` models `ValueError`. -/
def pyInt (cs : List Char) : Option Int :=
  match pyStrip cs with
  | '+' :: rest => (pyDigitpart rest).map Int.ofNat
  | '-' :: rest => (pyDigitpart rest).map (fun n => -(n : Int))
  | rest => (pyDigitpart rest).map Int.ofNat

/-! ## Diagnostic classifier (`pg_mirror/restore.py`, `restore_backup` lines 54-102) -/

/-- The fixed benign substrings excluded from critical errors
(`restore.py` lines 67-72). -/
def benignSubstrings : List (List Char) :=
  [("must be owner").toList, ("permission denied").toList,
   ("role").toList, ("does not exist").toList]

/-- One stderr line is collected as a critical error iff, case-insensitively,
it contains `error:` and `pg_restore: error:` and none of the benign substrings
(`restore.py` lines 63-73). -/
def isCriticalLine (line : List Char) : Bool :=
  let ll := lowerStr line
  substrIn ("error:").toList ll && substrIn ("pg_restore: error:").toList ll &&
    !(benignSubstrings.any (fun b => substrIn b ll))

/-- The stderr lines (`stderr_output.split('\n')`, `restore.py` line 62). -/
def strLines (stderr : String) : List (List Char) :=
  splitOnChar '\n' stderr.toList

/-- The ordered list of stripped critical-error lines collected from stderr
(`restore.py` lines 58-73; the whole scan is guarded by `if stderr_output:`). -/
def criticalErrors (stderr : String) : List (List Char) :=
  if stderr = "" then []
  else ((strLines stderr).filter isCriticalLine).map pyStrip

/-- Test selecting the warning-summary line (`restore.py` line 76). -/
def warningLineTest (line : List Char) : Bool :=
  substrIn ("warning: errors ignored on restore:").toList (lowerStr line)

/-- `int(line.split(':')[-1].strip())` (`restore.py` line 78). -/
def parseWarning (line : List Char) : Option Int :=
  pyInt ((splitOnChar ':' line).getLastD [])

/-- The warning count after the scan: starts at 0; every warning-summary line
whose trailing integer parses overwrites it, parse failures keep the previous
value (`restore.py` lines 59, 76-80). -/
def warningCount (stderr : String) : Int :=
  if stderr = "" then 0
  else (strLines stderr).foldl
    (fun acc line => if warningLineTest line then (parseWarning line).getD acc else acc) 0

/-- The boolean returned by `restore_backup` as a function of the captured
stderr text and the process exit code (`restore.py` lines 83-102). -/
def restore_backup_result (stderr : String) (returncode : Int) : Bool :=
  if criticalErrors stderr ≠ [] then false
  else if returncode = 0 ∨ (returncode = 1 ∧ warningCount stderr > 0) then true
  else false

/-- The spec's DiagnosticVerdict tri-state plus the unclassified-failure
fallback (spec section 4.1). -/
inductive Verdict where
  | ok
  | okWithWarnings
  | critical
  | failure
deriving DecidableEq

/-- The classifier verdict, following the decision rule of spec section 4.1
over the quantities the code computes. -/
def restoreVerdict (stderr : String) (returncode : Int) : Verdict :=
  if criticalErrors stderr ≠ [] then .critical
  else if returncode = 0 then .ok
  else if returncode = 1 ∧ warningCount stderr > 0 then .okWithWarnings
  else .failure

/-- Every attributed error line (containing `pg_restore: error:`,
case-insensitively) matches one of the benign substrings. -/
def allAttributedBenign (stderr : String) : Bool :=
  (strLines stderr).all (fun line =>
    !(substrIn ("pg_restore: error:").toList (lowerStr line)) ||
      benignSubstrings.any (fun b => substrIn b (lowerStr line)))

/-- Claim C1 as stated, at one diagnostic text and exit code: critical (returns
`False`) whenever a non-benign attributed error line remains, regardless of exit
code; otherwise ok (`True`) on exit code 0, ok-with-warnings (`True`) on exit
code exactly 1 with a nonzero parsed warning count, and failure (`False`)
otherwise. -/
def C1ClaimAt (stderr : String) (code : Int) : Prop :=
  (criticalErrors stderr ≠ [] → restore_backup_result stderr code = false)
  ∧ (criticalErrors stderr = [] →
      ((code = 0 → restore_backup_result stderr code = true)
       ∧ (code = 1 ∧ warningCount stderr ≠ 0 → restore_backup_result stderr code = true)
       ∧ (¬code = 0 ∧ ¬(code = 1 ∧ warningCount stderr ≠ 0) →
            restore_backup_result stderr code = false)))

/-- Claim C2 as stated, at one diagnostic text and exit code: if every
attributed error line matches a benign substring then the verdict is ok or
ok-with-warnings. -/
def C2ClaimAt (stderr : String) (code : Int) : Prop :=
  allAttributedBenign stderr = true →
    (restoreVerdict stderr code = .ok ∨ restoreVerdict stderr code = .okWithWarnings)

/-! ## Naming resolver (`pg_mirror/hooks.py`) -/

/-- ASCII lowercase letter test (regex class `[a-z]`). -/
def isLowerAlpha (c : Char) : Bool := 'a' ≤ c && c ≤ 'z'

/-- `re.sub(r"[^a-zA-Z0-9_]", "", ...)` (`hooks.py` line 232): keep only ASCII
letters, digits and underscores. -/
def sanitizeDbChars (cs : List Char) : List Char :=
  cs.filter (fun c => c.isAlphanum || c = '_')

/-- `gerar_nome_banco_dados` (`hooks.py` lines 222-235): first piece of the
display name split on the space character, lowercased; composed as
`{uf}_d1_{pk}_{nome_fantasia}` with the region lowercased; then sanitized. -/
def gerar_nome_banco_dados (pk nome uf : String) : String :=
  let nome_fantasia := lowerStr ((splitOnChar ' ' nome.toList).headD [])
  let nome_banco_dados :=
    lowerStr uf.toList ++ ("_d1_").toList ++ pk.toList ++ ['_'] ++ nome_fantasia
  String.mk (sanitizeDbChars nome_banco_dados)

/-- The first whitespace-delimited token of a character sequence. -/
def firstWhitespaceToken (cs : List Char) : List Char :=
  (cs.dropWhile Char.isWhitespace).takeWhile (fun c => !c.isWhitespace)

/-- Claim C7's version of the derivation, following the claim's words: take the
first whitespace-delimited token of the display name, lowercase it, compose
`<region>_d1_<id>_<token>` with the region lowercased, then strip every
character that is not an ASCII letter, digit, or underscore. -/
def derive_target_name_claim (pk nome uf : String) : String :=
  let token := lowerStr (firstWhitespaceToken nome.toList)
  String.mk (sanitizeDbChars
    (lowerStr uf.toList ++ ("_d1_").toList ++ pk.toList ++ ['_'] ++ token))

/-- The amended C7 contract, following its words: take the first
space-delimited piece of the display name (split on the space character
U+0020, empty pieces kept), lowercase it, compose `<region>_d1_<id>_<token>`
with the region lowercased, then strip every character that is not an ASCII
letter, digit, or underscore. -/
def derive_target_name_amended (pk nome uf : String) : String :=
  let token := lowerStr ((splitOnChar ' ' nome.toList).headD [])
  String.mk (sanitizeDbChars
    (lowerStr uf.toList ++ ("_d1_").toList ++ pk.toList ++ ['_'] ++ token))

/-- `extrair_id_assinatura_do_nome_banco`'s regex match
`re.match(r"^[a-z]{2}_d1_(\d+)_", nome.lower())` (`hooks.py` lines 50-51),
over the lowered character sequence: two lowercase letters, the literal
`_d1_`, a maximal nonempty digit run that must be followed by `_`; returns the
digit run. -/
def extAux (cs : List Char) : Option (List Char) :=
  match cs with
  | c1 :: c2 :: c3 :: c4 :: c5 :: c6 :: rest =>
    if c3 = '_' ∧ c4 = 'd' ∧ c5 = '1' ∧ c6 = '_'
        ∧ isLowerAlpha c1 = true ∧ isLowerAlpha c2 = true then
      if rest.takeWhile Char.isDigit = [] then none
      else if (rest.dropWhile Char.isDigit).head? = some '_' then
        some (rest.takeWhile Char.isDigit)
      else none
    else none
  | _ => none

/-- `extrair_id_assinatura_do_nome_banco` (`hooks.py` lines 31-59): the
extracted numeric id, or `none` when the name does not match the encoding. -/
def extrair_id_assinatura_do_nome_banco (nome : String) : Option String :=
  (extAux (lowerStr nome.toList)).map String.mk

/-- A character sequence matches the identifier encoding with key `ds`:
`ds` is a nonempty digit run and the sequence is
`<letter><letter>_d1_<ds>_<anything>`. -/
def EncMatch (cs ds : List Char) : Prop :=
  ds ≠ [] ∧ (∀ c ∈ ds, c.isDigit = true) ∧
    ∃ c1 c2 rest, isLowerAlpha c1 = true ∧ isLowerAlpha c2 = true ∧
      cs = c1 :: c2 :: '_' :: 'd' :: '1' :: '_' :: (ds ++ '_' :: rest)

/-- A name matches the identifier encoding (case-insensitively, via lowering)
with the numeric-id key `key`. -/
def EncMatchStr (nome key : String) : Prop :=
  EncMatch (lowerStr nome.toList) key.toList

/-! ## Audit ledger (`pg_mirror/history.py`) -/

/-- A JSON value as stored in the `extra` column (strings, numbers, null). -/
inductive JVal where
  | jstr (s : String)
  | jnum (n : Int)
  | jnull
deriving DecidableEq

/-- One row of the sqlite `backups` table (`history.py` SCHEMA). The REAL
`size_mb` column carries no logic in this system and is modelled as an
integer; the serialized `extra` text is modelled as the association list it
encodes (`NULL` as `none`). -/
structure BackupRecord where
  id : Nat
  createdAt : String
  host : String
  port : Int
  database : String
  username : String
  backupPath : String
  sizeMb : Int
  status : Option String
  extra : Option (List (String × JVal))
deriving DecidableEq

/-- `record_backup` (`history.py` lines 41-58): insert a row (the fresh
autoincrement id is supplied as `nextId`) and return its id. The stored extra
text is `json.dumps(extra) if extra else None`, so an absent or empty map is
stored as NULL. -/
def record_backup (store : List BackupRecord) (nextId : Nat) (createdAt host : String)
    (port : Int) (database username backupPath : String) (sizeMb : Int)
    (status : String) (extra : Option (List (String × JVal))) :
    List BackupRecord × Nat :=
  let extraText : Option (List (String × JVal)) :=
    match extra with
    | some e => if e = [] then none else some e
    | none => none
  (store ++ [{ id := nextId, createdAt := createdAt, host := host, port := port,
               database := database, username := username, backupPath := backupPath,
               sizeMb := sizeMb, status := some status, extra := extraText }],
   nextId)

/-- The effect of one `UPDATE backups SET ... WHERE id = ?` on one row: each
supplied field overwrites the column, an absent field leaves it. -/
def applyUpdate (status : Option String) (extra : Option (List (String × JVal)))
    (r : BackupRecord) : BackupRecord :=
  { r with
    status := match status with | some s => some s | none => r.status
    extra := match extra with | some e => some e | none => r.extra }

/-- `update_backup` (`history.py` lines 61-80): with neither field supplied it
returns `False` and touches nothing; otherwise it updates every row whose id
matches (at most one, by autoincrement) and returns `True` whether or not any
row matched. -/
def update_backup (store : List BackupRecord) (backupId : Nat)
    (status : Option String) (extra : Option (List (String × JVal))) :
    List BackupRecord × Bool :=
  if status = none ∧ extra = none then (store, false)
  else (store.map (fun r => if r.id = backupId then applyUpdate status extra r else r),
        true)

/-- `get_backup` (`history.py` lines 83-104): the first row with the given id. -/
def get_backup (store : List BackupRecord) (backupId : Nat) : Option BackupRecord :=
  store.find? (fun r => r.id == backupId)

/-- Claim C9 as stated: updating with an extra map merges it into the stored
extra map (new entries win, unshadowed old entries survive), and a status-only
update leaves stored extra maps unchanged. -/
def C9Claim : Prop :=
  (∀ (store : List BackupRecord) (bid : Nat) (r0 : BackupRecord)
      (e0 e1 : List (String × JVal)) (st : Option String) (r1 : BackupRecord),
    get_backup store bid = some r0 → r0.extra = some e0 →
    get_backup (update_backup store bid st (some e1)).1 bid = some r1 →
    (∀ kv ∈ e1, kv ∈ r1.extra.getD []) ∧
      (∀ kv ∈ e0, (∀ kv2 ∈ e1, kv2.1 ≠ kv.1) → kv ∈ r1.extra.getD []))
  ∧ (∀ (store : List BackupRecord) (bid : Nat) (s : String),
      ((update_backup store bid (some s) none).1).map (fun r => r.extra)
        = store.map (fun r => r.extra))

/-- A concrete stored row used to exercise the ledger claims. -/
def sampleRecord : BackupRecord :=
  { id := 1, createdAt := "2024-01-01T00:00:00Z", host := "h", port := 5432,
    database := "db", username := "u", backupPath := "/tmp/b.dump", sizeMb := 10,
    status := some "created", extra := some [("a", JVal.jstr "1")] }

/-! ## Workflow controller (`pg_mirror/cli.py`, `mirror` command)

External collaborators are supplied as oracle outcomes in an `Env` record:
`create_backup`/`cleanup_backup` (in `pg_mirror/backup.py`, which is not under
`src/`), the HTTP calls of `pg_mirror/hooks.py`, the probe/create/recreate
calls of `pg_mirror/database.py`, the sqlite connection of
`pg_mirror/history.py`, and the stderr/exit code the restore subprocess
produces. The in-repository control flow of `mirror` (lines 119-354) is
embedded faithfully; logging, `click.pause` and the post-restore email
fix-up (whose failure is caught and logged, lines 316-340) have no effect on
the modelled state. -/

/-- Outcome of one collaborator call: a value, or a raised exception carrying
its message text. -/
inductive Res (α : Type) where
  | ok (val : α)
  | err (msg : String)
deriving DecidableEq

/-- The identity fields of the cloned subscription the workflow reads
(`assinatura_clonada["id"]`, `["ss_nome_fantasia"]`, `["ss_uf"]`). -/
structure CloneData where
  id : Nat
  ssNomeFantasia : String
  ssUf : String
deriving DecidableEq

/-- The workflow's environment: configuration plus the outcome of every
external call it may make. An `Res.err` models the call raising. -/
structure Env where
  sourceHost : String
  sourcePort : Int
  sourceUser : String
  sourceDb : String
  dropExisting : Bool
  now : String
  sizeMb : Int
  backupRes : Res String
  recordRes : Res Unit
  fetchRes : Res (Option Unit)
  cloneRes : Res CloneData
  emailUsuario : Option String
  criarRes : Res Unit
  existsRes : Res Bool
  recreateRes : Res Unit
  createRes : Res Unit
  restoreRaises : Bool
  restoreStderr : String
  restoreExit : Int

/-- Everything the workflow's audit/hooks section (`cli.py` lines 134-261)
leaves behind. -/
structure HooksOutcome where
  ledger : List BackupRecord
  recordId : Option Nat
  hooksOk : Bool
  target : String
  fetchInvoked : Bool
  cloneInvoked : Bool

/-- A JSON value for an optional string (Python `None` becomes JSON null). -/
def optJ : Option String → JVal
  | some s => .jstr s
  | none => .jnull

/-- The extra-data map written on `hooks_completed` (`cli.py` lines 233-243). -/
def completedExtra (aidv : String) (clone : CloneData) (email : Option String)
    (tgt : String) : List (String × JVal) :=
  [("assinatura_id_prod", JVal.jstr aidv),
   ("assinatura_id_dev", JVal.jnum (clone.id : Int)),
   ("email_assinante", optJ email),
   ("email_usuario", optJ email),
   ("target_database", JVal.jstr tgt)]

/-- The audit/hooks section (`cli.py` lines 134-261): create the audit record;
if that raises, warn and continue, fatally only when a correlation key was
resolved (lines 255-261); otherwise, when a key was resolved, run
fetch → clone → derive target → link, updating the record to `hooks_skipped`,
`hooks_failed` (with the error text) or `hooks_completed` as the chain
dictates (lines 158-253). -/
def hooksPhase (env : Env) (aid : Option String) (store : List BackupRecord)
    (nextId : Nat) (backupPath : String) : HooksOutcome :=
  match env.recordRes with
  | .err _ =>
    { ledger := store, recordId := none, hooksOk := aid.isNone,
      target := env.sourceDb, fetchInvoked := false, cloneInvoked := false }
  | .ok _ =>
    let rb := record_backup store nextId env.now env.sourceHost env.sourcePort
      env.sourceDb env.sourceUser backupPath env.sizeMb "created" none
    let l1 := rb.1
    let rid := rb.2
    match aid with
    | none =>
      { ledger := l1, recordId := some rid, hooksOk := true,
        target := env.sourceDb, fetchInvoked := false, cloneInvoked := false }
    | some aidv =>
      match env.fetchRes with
      | .err m =>
        { ledger := (update_backup l1 rid (some "hooks_failed")
              (some [("error", JVal.jstr m)])).1,
          recordId := some rid, hooksOk := false, target := env.sourceDb,
          fetchInvoked := true, cloneInvoked := false }
      | .ok none =>
        { ledger := (update_backup l1 rid (some "hooks_skipped") none).1,
          recordId := some rid, hooksOk := true, target := env.sourceDb,
          fetchInvoked := true, cloneInvoked := false }
      | .ok (some _) =>
        match env.cloneRes with
        | .err m =>
          { ledger := (update_backup l1 rid (some "hooks_failed")
                (some [("error", JVal.jstr m)])).1,
            recordId := some rid, hooksOk := false, target := env.sourceDb,
            fetchInvoked := true, cloneInvoked := true }
        | .ok clone =>
          let tgt := gerar_nome_banco_dados (toString clone.id)
            clone.ssNomeFantasia clone.ssUf
          if env.emailUsuario.isSome ∧ clone.id ≠ 0 then
            match env.criarRes with
            | .err m =>
              { ledger := (update_backup l1 rid (some "hooks_failed")
                    (some [("error", JVal.jstr m)])).1,
                recordId := some rid, hooksOk := false, target := tgt,
                fetchInvoked := true, cloneInvoked := true }
            | .ok _ =>
              { ledger := (update_backup l1 rid (some "hooks_completed")
                    (some (completedExtra aidv clone env.emailUsuario tgt))).1,
                recordId := some rid, hooksOk := true, target := tgt,
                fetchInvoked := true, cloneInvoked := true }
          else
            { ledger := (update_backup l1 rid (some "hooks_completed")
                  (some (completedExtra aidv clone env.emailUsuario tgt))).1,
              recordId := some rid, hooksOk := true, target := tgt,
              fetchInvoked := true, cloneInvoked := true }

/-- The observable outcome of one `mirror` run. -/
structure MirrorResult where
  exitCode : Nat
  uncaughtExn : Option String
  fetchInvoked : Bool
  cloneInvoked : Bool
  probeInvoked : Bool
  restoreInvoked : Bool
  cleanupInvoked : Bool
  backupCreated : Bool
  backupFileExists : Bool
  targetDatabase : String
  history : List BackupRecord
  recordId : Option Nat

/-- The `finally` block (`cli.py` lines 351-354): runs on every path out of the
`try`, calling the cleanup collaborator exactly when `backup_file` was set.
Modelled from the spec: `cleanup_backup` (in `pg_mirror/backup.py`, not under
`src/`) deletes the backup artifact file, per the Backup collaborator contract
of spec section 6 and the terminal-cleanup rule of section 4.5 — afterwards
the artifact no longer exists on disk. -/
def applyFinally (backupFile : Option String) (r : MirrorResult) : MirrorResult :=
  match backupFile with
  | some _ => { r with backupCreated := true, cleanupInvoked := true,
                       backupFileExists := false }
  | none => { r with backupCreated := false, cleanupInvoked := false,
                     backupFileExists := false }

/-- The target-preparation outcome (`cli.py` lines 272-301): recreate when the
database exists under a drop-existing policy, create when it does not exist,
otherwise leave it alone. -/
def prepRes (env : Env) (dbExists : Bool) : Res Unit :=
  if dbExists && env.dropExisting then env.recreateRes
  else if !dbExists then env.createRes
  else .ok ()

/-- The whole target-preparation stage succeeds: the existence probe answers,
and whichever of recreate/create it dictates succeeds. -/
def targetPrepSucceeds (env : Env) : Bool :=
  match env.existsRes with
  | .err _ => false
  | .ok b =>
    match prepRes env b with
    | .ok _ => true
    | .err _ => false

/-- The body of the `try` after a successful backup (`cli.py` lines 134-349):
audit/hooks section, the abort gate on hook failure (lines 264-268, exit 1),
target preparation (an exception propagates out of the `try`), restore, and
the final success/failure exit. -/
def mirrorBody (env : Env) (store : List BackupRecord) (nextId : Nat)
    (backupPath : String) : MirrorResult :=
  let aid := extrair_id_assinatura_do_nome_banco env.sourceDb
  let ho := hooksPhase env aid store nextId backupPath
  let base : MirrorResult :=
    { exitCode := 0, uncaughtExn := none, fetchInvoked := ho.fetchInvoked,
      cloneInvoked := ho.cloneInvoked, probeInvoked := false,
      restoreInvoked := false, cleanupInvoked := false, backupCreated := false,
      backupFileExists := false, targetDatabase := ho.target,
      history := ho.ledger, recordId := ho.recordId }
  if ho.hooksOk = false then { base with exitCode := 1 }
  else
    match env.existsRes with
    | .err m => { base with probeInvoked := true, uncaughtExn := some m, exitCode := 1 }
    | .ok dbExists =>
      match prepRes env dbExists with
      | .err m => { base with probeInvoked := true, uncaughtExn := some m, exitCode := 1 }
      | .ok _ =>
        let success := !env.restoreRaises
          && restore_backup_result env.restoreStderr env.restoreExit
        if success then
          { base with probeInvoked := true, restoreInvoked := true, exitCode := 0 }
        else
          { base with probeInvoked := true, restoreInvoked := true, exitCode := 1 }

/-- The `mirror` command's workflow (`cli.py` lines 119-354): attempt the
backup (a failure there propagates with `backup_file` still unset), run the
body, and apply the `finally` cleanup on every exit path. -/
def mirror (env : Env) (store : List BackupRecord) (nextId : Nat) : MirrorResult :=
  match env.backupRes with
  | .err m =>
    applyFinally none
      { exitCode := 1, uncaughtExn := some m, fetchInvoked := false,
        cloneInvoked := false, probeInvoked := false, restoreInvoked := false,
        cleanupInvoked := false, backupCreated := false, backupFileExists := false,
        targetDatabase := env.sourceDb, history := store, recordId := none }
  | .ok path => applyFinally (some path) (mirrorBody env store nextId path)

/-- The row `record_backup` inserts for the workflow's backup (status
`created`, no extra). -/
def createdRow (env : Env) (nextId : Nat) (path : String) : BackupRecord :=
  { id := nextId, createdAt := env.now, host := env.sourceHost, port := env.sourcePort,
    database := env.sourceDb, username := env.sourceUser, backupPath := path,
    sizeMb := env.sizeMb, status := some "created", extra := none }

/-- Environment for the C3 witness: resolvable source name, fetch succeeds,
clone raises. -/
def envCloneFails : Env :=
  { sourceHost := "h", sourcePort := 5432, sourceUser := "u",
    sourceDb := "sp_d1_123_acme", dropExisting := false, now := "t", sizeMb := 0,
    backupRes := .ok "/tmp/b.dump", recordRes := .ok (),
    fetchRes := .ok (some ()), cloneRes := .err "boom", emailUsuario := none,
    criarRes := .ok (), existsRes := .ok true, recreateRes := .ok (),
    createRes := .ok (), restoreRaises := false, restoreStderr := "",
    restoreExit := 0 }

/-- Environment for the C5 witness: resolvable source name, fetch returns an
empty response. -/
def envFetchEmpty : Env :=
  { sourceHost := "h", sourcePort := 5432, sourceUser := "u",
    sourceDb := "sp_d1_123_acme", dropExisting := false, now := "t", sizeMb := 0,
    backupRes := .ok "/tmp/b.dump", recordRes := .ok (),
    fetchRes := .ok none, cloneRes := .ok { id := 7, ssNomeFantasia := "X", ssUf := "SP" },
    emailUsuario := none, criarRes := .ok (), existsRes := .ok true,
    recreateRes := .ok (), createRes := .ok (), restoreRaises := false,
    restoreStderr := "", restoreExit := 0 }

/-- Environment for the C6 witness, no correlation key: unresolvable source
name, audit-record creation raises. -/
def envAuditFailNoKey : Env :=
  { sourceHost := "h", sourcePort := 5432, sourceUser := "u",
    sourceDb := "banco_invalido", dropExisting := false, now := "t", sizeMb := 0,
    backupRes := .ok "/tmp/b.dump", recordRes := .err "sqlite locked",
    fetchRes := .ok none, cloneRes := .ok { id := 7, ssNomeFantasia := "X", ssUf := "SP" },
    emailUsuario := none, criarRes := .ok (), existsRes := .ok true,
    recreateRes := .ok (), createRes := .ok (), restoreRaises := false,
    restoreStderr := "", restoreExit := 0 }

/-- Environment for the C6 witness, with a correlation key: resolvable source
name, audit-record creation raises. -/
def envAuditFailKey : Env :=
  { sourceHost := "h", sourcePort := 5432, sourceUser := "u",
    sourceDb := "sp_d1_123_acme", dropExisting := false, now := "t", sizeMb := 0,
    backupRes := .ok "/tmp/b.dump", recordRes := .err "sqlite locked",
    fetchRes := .ok none, cloneRes := .ok { id := 7, ssNomeFantasia := "X", ssUf := "SP" },
    emailUsuario := none, criarRes := .ok (), existsRes := .ok true,
    recreateRes := .ok (), createRes := .ok (), restoreRaises := false,
    restoreStderr := "", restoreExit := 0 }

/-! ## Claims and supporting theorems -/

/-- Every line the classifier collects as critical passes `isCriticalLine`,
so a diagnostic text all of whose attributed error lines are benign yields an
empty critical list. -/
theorem criticalErrors_eq_nil_of_benign (stderr : String)
    (h : allAttributedBenign stderr = true) : criticalErrors stderr = [] := by
  unfold criticalErrors
  split
  · rfl
  · unfold allAttributedBenign at h
    rw [List.all_eq_true] at h
    rw [List.map_eq_nil_iff, List.filter_eq_nil_iff]
    intro line hline
    have hb := h line hline
    unfold isCriticalLine
    simp only [Bool.or_eq_true, Bool.not_eq_true', Bool.and_eq_true,
      Bool.not_eq_true] at hb ⊢
    intro hcrit
    rcases hb with hb | hb
    · rw [hb] at hcrit
      exact absurd hcrit.1.2 (by simp)
    · rw [hb] at hcrit
      exact absurd hcrit.2 (by simp)

/-- C1 (counterexample): the claim as stated fails on the diagnostic text
`pg_restore: warning: errors ignored on restore: -3` with exit code 1: the
parsed warning count is -3, which is nonzero, yet `restore_backup` returns
`False` because the code tests `warning_count > 0`, not `!= 0`. -/
theorem C1_counterexample :
    ¬ C1ClaimAt "pg_restore: warning: errors ignored on restore: -3" 1 := by
  unfold C1ClaimAt
  decide

/-- Shared characterization of the classifier: each verdict constructor, and
the boolean `restore_backup` returns, in terms of the computed critical list,
the exit code and the parsed warning count. -/
theorem restore_classifier_spec (stderr : String) (code : Int) :
    (restore_backup_result stderr code = false ↔
      (restoreVerdict stderr code = .critical ∨ restoreVerdict stderr code = .failure))
    ∧ (restoreVerdict stderr code = .critical ↔ criticalErrors stderr ≠ [])
    ∧ (restoreVerdict stderr code = .ok ↔ (criticalErrors stderr = [] ∧ code = 0))
    ∧ (restoreVerdict stderr code = .okWithWarnings ↔
        (criticalErrors stderr = [] ∧ code = 1 ∧ warningCount stderr > 0)) := by
  unfold restore_backup_result restoreVerdict
  by_cases hc : criticalErrors stderr = []
  · by_cases h0 : code = 0
    · subst h0
      simp [hc]
    · by_cases h1 : code = 1 ∧ warningCount stderr > 0
      · obtain ⟨h1a, h1b⟩ := h1
        subst h1a
        simp [hc, h1b]
      · simp [hc, h0, h1]
  · simp [hc]

/-- C1 (amended): the classifier decides as the claim states, with "nonzero
warning count" read as "positive warning count": the verdict is critical
(returning `False`) exactly when an attributed non-benign error line remains,
regardless of exit code; otherwise ok exactly on exit code 0,
ok-with-warnings exactly on exit code 1 with positive parsed warning count,
and the unclassified failure (returning `False`) for every other exit code;
`restore_backup` returns `False` exactly on the critical and failure verdicts. -/
theorem C1_classifier_decision (stderr : String) (code : Int) :
    (restore_backup_result stderr code = false ↔
      (restoreVerdict stderr code = .critical ∨ restoreVerdict stderr code = .failure))
    ∧ (restoreVerdict stderr code = .critical ↔ criticalErrors stderr ≠ [])
    ∧ (restoreVerdict stderr code = .ok ↔ (criticalErrors stderr = [] ∧ code = 0))
    ∧ (restoreVerdict stderr code = .okWithWarnings ↔
        (criticalErrors stderr = [] ∧ code = 1 ∧ warningCount stderr > 0)) :=
  restore_classifier_spec stderr code

/-- C2 (counterexample): the claim as stated fails on the diagnostic text
`pg_restore: error: must be owner of relation x` (whose only attributed error
line is benign) with exit code 2: the verdict is the unclassified failure,
not ok or ok-with-warnings. -/
theorem C2_counterexample :
    ¬ C2ClaimAt "pg_restore: error: must be owner of relation x" 2 := by
  unfold C2ClaimAt
  decide

/-- C2 (amended): for every diagnostic text all of whose attributed error lines
match one of the fixed benign substrings, and for every exit code, the
classifier never returns critical; it returns ok (exit code 0) or
ok-with-warnings (exit code 1 with positive parsed warning count) whenever the
exit code is one of those two accepted cases, `restore_backup` then returning
`True`. -/
theorem C2_benign_never_critical (stderr : String) (code : Int)
    (h : allAttributedBenign stderr = true) :
    restoreVerdict stderr code ≠ .critical
    ∧ (code = 0 →
        restoreVerdict stderr code = .ok ∧ restore_backup_result stderr code = true)
    ∧ (code = 1 → warningCount stderr > 0 →
        restoreVerdict stderr code = .okWithWarnings
          ∧ restore_backup_result stderr code = true) := by
  have hnil := criticalErrors_eq_nil_of_benign stderr h
  obtain ⟨hres, hcrit, hok, hokw⟩ := restore_classifier_spec stderr code
  refine ⟨?_, ?_, ?_⟩
  · intro hcontra
    exact (hcrit.mp hcontra) hnil
  · intro h0
    have hv := hok.mpr ⟨hnil, h0⟩
    refine ⟨hv, ?_⟩
    cases hb : restore_backup_result stderr code
    · rcases hres.mp hb with hcv | hcv <;> rw [hv] at hcv <;> exact absurd hcv (by simp)
    · rfl
  · intro h1 hw
    have hv := hokw.mpr ⟨hnil, h1, hw⟩
    refine ⟨hv, ?_⟩
    cases hb : restore_backup_result stderr code
    · rcases hres.mp hb with hcv | hcv <;> rw [hv] at hcv <;> exact absurd hcv (by simp)
    · rfl

/-- C7 (counterexample): on the display name `Acme<TAB>Corp` the code keeps the
whole name (it splits on the space character only, and the tab is later
sanitized away), while the claim's whitespace-token rule keeps only `Acme`:
the two disagree at `("55", "Acme\tCorp", "SP")`. -/
theorem C7_counterexample :
    gerar_nome_banco_dados "55" "Acme\tCorp" "SP" = "sp_d1_55_acmecorp"
    ∧ derive_target_name_claim "55" "Acme\tCorp" "SP" = "sp_d1_55_acme"
    ∧ gerar_nome_banco_dados "55" "Acme\tCorp" "SP"
        ≠ derive_target_name_claim "55" "Acme\tCorp" "SP" := by
  refine ⟨by decide, by decide, by decide⟩

/-- C7 (amended): `gerar_nome_banco_dados` is a deterministic, pure, total
function that takes the first space-delimited (not whitespace-delimited) piece
of the display name, lowercases it, composes `<region>_d1_<id>_<token>` with
the region lowercased, and strips every character that is not an ASCII letter,
digit or underscore; in particular it maps `("55", "Acme Corp", "SP")` to
`"sp_d1_55_acme"`. -/
theorem C7_derive_target_name (pk nome uf : String) :
    gerar_nome_banco_dados pk nome uf = derive_target_name_amended pk nome uf
    ∧ gerar_nome_banco_dados "55" "Acme Corp" "SP" = "sp_d1_55_acme" :=
  ⟨rfl, by decide⟩

/-- Taking digits from a digit run followed by an underscore yields exactly
the run. -/
theorem takeWhile_digits_append (ds rest : List Char)
    (h : ∀ c ∈ ds, c.isDigit = true) :
    (ds ++ '_' :: rest).takeWhile Char.isDigit = ds := by
  induction ds with
  | nil => simp
  | cons c cs ih =>
    have hc : c.isDigit = true := h c (List.mem_cons_self _ _)
    simp only [List.cons_append, List.takeWhile_cons, hc, if_true]
    rw [ih (fun x hx => h x (List.mem_cons_of_mem _ hx))]

/-- Dropping digits from a digit run followed by an underscore yields the
underscore and the remainder. -/
theorem dropWhile_digits_append (ds rest : List Char)
    (h : ∀ c ∈ ds, c.isDigit = true) :
    (ds ++ '_' :: rest).dropWhile Char.isDigit = '_' :: rest := by
  induction ds with
  | nil => simp
  | cons c cs ih =>
    have hc : c.isDigit = true := h c (List.mem_cons_self _ _)
    simp only [List.cons_append, List.dropWhile_cons, hc, if_true]
    exact ih (fun x hx => h x (List.mem_cons_of_mem _ hx))

/-- The regex embedding succeeds with group `ds` exactly when the character
sequence matches the identifier encoding with key `ds`. -/
theorem extAux_eq_some_iff (cs ds : List Char) :
    extAux cs = some ds ↔ EncMatch cs ds := by
  constructor
  · intro h
    rcases cs with _ | ⟨c1, _ | ⟨c2, _ | ⟨c3, _ | ⟨c4, _ | ⟨c5, _ | ⟨c6, rest⟩⟩⟩⟩⟩⟩ <;>
      simp only [extAux] at h
    all_goals try exact Option.noConfusion h
    split_ifs at h with hcond h1 h2
    obtain ⟨hc3, hc4, hc5, hc6, hl1, hl2⟩ := hcond
    subst hc3; subst hc4; subst hc5; subst hc6
    have hds : ds = rest.takeWhile Char.isDigit := by
      cases h; rfl
    subst hds
    refine ⟨h1, fun c hc => List.mem_takeWhile_imp hc, c1, c2,
      (rest.dropWhile Char.isDigit).tail, hl1, hl2, ?_⟩
    have hsplit := List.takeWhile_append_dropWhile (p := Char.isDigit) (l := rest)
    match hdw : rest.dropWhile Char.isDigit with
    | [] => rw [hdw] at h2; simp at h2
    | c :: t =>
      rw [hdw] at h2
      simp only [List.head?_cons, Option.some.injEq] at h2
      subst h2
      rw [hdw] at hsplit
      simp only [List.tail_cons]
      rw [List.cons_inj_right, List.cons_inj_right, List.cons_inj_right,
        List.cons_inj_right, List.cons_inj_right, List.cons_inj_right]
      exact hsplit.symm
  · rintro ⟨hne, hdig, c1, c2, rest, h1, h2, hcs⟩
    subst hcs
    simp only [extAux]
    rw [takeWhile_digits_append ds rest hdig, dropWhile_digits_append ds rest hdig]
    simp [h1, h2, hne]

/-- C8: `extrair_id_assinatura_do_nome_banco` is total by construction and
returns the numeric-id substring exactly when the name matches the
`<region-code>_d1_<numeric-id>_<slug>` encoding, case-insensitively via
lowering (ASCII model); in particular `"sp_d1_123_acme"` and
`"SP_D1_123_ACME"` both yield `"123"` and `"banco_invalido"` yields none. -/
theorem C8_extract_correlation_key :
    (∀ nome key, extrair_id_assinatura_do_nome_banco nome = some key ↔ EncMatchStr nome key)
    ∧ extrair_id_assinatura_do_nome_banco "sp_d1_123_acme" = some "123"
    ∧ extrair_id_assinatura_do_nome_banco "SP_D1_123_ACME" = some "123"
    ∧ extrair_id_assinatura_do_nome_banco "banco_invalido" = none := by
  refine ⟨?_, by decide, by decide, by decide⟩
  intro nome key
  unfold extrair_id_assinatura_do_nome_banco EncMatchStr
  rw [← extAux_eq_some_iff]
  cases h : extAux (lowerStr nome.toList) with
  | none => simp
  | some ds =>
    simp only [Option.map_some', Option.some.injEq]
    constructor
    · intro hk
      subst hk
      rfl
    · intro hk
      rw [hk]
      cases key
      rfl

/-- C2 (witness): the amended C2 theorem applied at a concrete benign-only
diagnostic text and exit code 0. -/
theorem C2_benign_never_critical_witness :
    restoreVerdict "pg_restore: error: must be owner of relation x" 0 ≠ .critical
    ∧ ((0 : Int) = 0 →
        restoreVerdict "pg_restore: error: must be owner of relation x" 0 = .ok
          ∧ restore_backup_result "pg_restore: error: must be owner of relation x" 0 = true)
    ∧ ((0 : Int) = 1 → warningCount "pg_restore: error: must be owner of relation x" > 0 →
        restoreVerdict "pg_restore: error: must be owner of relation x" 0 = .okWithWarnings
          ∧ restore_backup_result "pg_restore: error: must be owner of relation x" 0 = true) :=
  C2_benign_never_critical "pg_restore: error: must be owner of relation x" 0 (by decide)

/-- `applyUpdate` never changes the row id. -/
theorem applyUpdate_id (status : Option String) (extra : Option (List (String × JVal)))
    (r : BackupRecord) : (applyUpdate status extra r).id = r.id := rfl

/-- Reading back the updated row: a real update rewrites exactly the row the
lookup finds. -/
theorem get_backup_update (store : List BackupRecord) (bid : Nat)
    (st : Option String) (ex : Option (List (String × JVal)))
    (h : ¬(st = none ∧ ex = none)) :
    get_backup (update_backup store bid st ex).1 bid
      = (get_backup store bid).map (applyUpdate st ex) := by
  unfold update_backup get_backup
  rw [if_neg h]
  induction store with
  | nil => rfl
  | cons r rs ih =>
    by_cases hr : r.id = bid
    · simp [List.find?_cons, hr, applyUpdate_id]
    · simp only [List.map_cons, List.find?_cons]
      have h1 : ((if r.id = bid then applyUpdate st ex r else r).id == bid) = false := by
        simp [hr, applyUpdate_id]
      have h2 : (r.id == bid) = false := by simp [hr]
      rw [h1, h2]
      exact ih

/-- Appending a row with a fresh id and looking that id up finds the new row. -/
theorem get_backup_append_fresh (store : List BackupRecord) (x : BackupRecord) (i : Nat)
    (hx : x.id = i) (h : ∀ r ∈ store, r.id ≠ i) : get_backup (store ++ [x]) i = some x := by
  unfold get_backup
  induction store with
  | nil => simp [hx]
  | cons r rs ih =>
    simp only [List.cons_append, List.find?_cons]
    have hr : (r.id == i) = false := by simp [h r (List.mem_cons_self _ _)]
    rw [hr]
    exact ih (fun y hy => h y (List.mem_cons_of_mem _ hy))

/-- C9 (counterexample): updating the row whose stored extra map is
`{"a": "1"}` with the extra map `{"b": "2"}` leaves `{"b": "2"}` only — the
old entry `("a","1")`, whose key does not occur in the new map, is gone, so
the merge claim is false. -/
theorem C9_counterexample : ¬ C9Claim := by
  intro h
  have h2 := h.1 [sampleRecord] 1 sampleRecord [("a", JVal.jstr "1")]
    [("b", JVal.jstr "2")] none
    (applyUpdate none (some [("b", JVal.jstr "2")]) sampleRecord)
    (by decide) (by decide) (by decide)
  have h3 := h2.2 ("a", JVal.jstr "1") (by decide) (by decide)
  exact absurd h3 (by decide)

/-- C9 (amended): updating an existing record with an extra map replaces the
stored extra map entirely with the supplied one (old entries are discarded,
whether or not their keys recur), while the status field follows its own
supplied-or-kept rule; and an update supplying only a status leaves every
stored extra map unchanged. -/
theorem C9_update_replaces_extra (store : List BackupRecord) (bid : Nat)
    (st : Option String) (e1 : List (String × JVal)) (r0 : BackupRecord)
    (h : get_backup store bid = some r0) :
    (∃ r1, get_backup (update_backup store bid st (some e1)).1 bid = some r1
        ∧ r1.extra = some e1
        ∧ r1.status = (match st with | some s => some s | none => r0.status))
    ∧ (∀ s, ((update_backup store bid (some s) none).1).map (fun r => r.extra)
          = store.map (fun r => r.extra)) := by
  constructor
  · have hne : ¬(st = none ∧ (some e1 : Option (List (String × JVal))) = none) := by simp
    refine ⟨applyUpdate st (some e1) r0, ?_, rfl, rfl⟩
    rw [get_backup_update store bid st (some e1) hne, h]
    rfl
  · intro s
    unfold update_backup
    rw [if_neg (by simp), List.map_map]
    refine List.map_congr_left ?_
    intro r _
    by_cases hr : r.id = bid <;> simp [hr, applyUpdate]

/-- C9 (witness): the amended C9 theorem applied to a concrete one-row store. -/
theorem C9_update_replaces_extra_witness :
    (∃ r1, get_backup
        (update_backup [sampleRecord] 1 none (some [("b", JVal.jstr "2")])).1 1 = some r1
        ∧ r1.extra = some [("b", JVal.jstr "2")]
        ∧ r1.status = (match (none : Option String) with
            | some s => some s
            | none => sampleRecord.status))
    ∧ (∀ s, ((update_backup [sampleRecord] 1 (some s) none).1).map (fun r => r.extra)
          = [sampleRecord].map (fun r => r.extra)) :=
  C9_update_replaces_extra [sampleRecord] 1 none [("b", JVal.jstr "2")] sampleRecord
    (by decide)

/-- C10: `update_backup` returns `False` and leaves the store untouched exactly
when called with neither status nor extra; with at least one field supplied it
returns `True` — including on an empty store, where no record exists, so
`True` does not imply any record was found or modified. -/
theorem C10_update_return (store : List BackupRecord) (bid : Nat)
    (st : Option String) (ex : Option (List (String × JVal))) :
    (update_backup store bid st ex = (store, false) ↔ (st = none ∧ ex = none))
    ∧ (¬(st = none ∧ ex = none) → (update_backup store bid st ex).2 = true)
    ∧ update_backup [] 7 (some "s") none = ([], true) := by
  refine ⟨?_, ?_, by decide⟩
  · by_cases h : st = none ∧ ex = none
    · simp [update_backup, h]
    · simp [update_backup, h]
  · intro h
    simp [update_backup, h]

/-- C10 (witness): the C10 theorem applied at a concrete store and arguments. -/
theorem C10_update_return_witness :
    (update_backup [sampleRecord] 1 (some "done") none = ([sampleRecord], false)
        ↔ ((some "done" : Option String) = none
            ∧ (none : Option (List (String × JVal))) = none))
    ∧ (¬((some "done" : Option String) = none
          ∧ (none : Option (List (String × JVal))) = none) →
        (update_backup [sampleRecord] 1 (some "done") none).2 = true)
    ∧ update_backup [] 7 (some "s") none = ([], true) :=
  C10_update_return [sampleRecord] 1 (some "done") none

/-- When the whole target-preparation stage succeeds, the probe answered and
the dictated recreate/create call succeeded. -/
theorem prep_of_targetPrepSucceeds (env : Env) (h : targetPrepSucceeds env = true) :
    ∃ b, env.existsRes = .ok b ∧ prepRes env b = .ok () := by
  unfold targetPrepSucceeds at h
  cases hex : env.existsRes with
  | err m => simp [hex] at h
  | ok b =>
    simp only [hex] at h
    refine ⟨b, rfl, ?_⟩
    cases hp : prepRes env b with
    | err m => simp [hp] at h
    | ok u => cases u; rfl

/-- C3: if a correlation key was resolved and the clone step raises, the
restore collaborator is never invoked, the audit record's status becomes
`hooks_failed` with the error text stored in its extra-data, and the process
exit status is nonzero. -/
theorem C3_clone_failure_blocks_restore (env : Env) (store : List BackupRecord)
    (nextId : Nat) (k path m : String)
    (hk : extrair_id_assinatura_do_nome_banco env.sourceDb = some k)
    (hb : env.backupRes = .ok path)
    (hrec : env.recordRes = .ok ())
    (hfetch : env.fetchRes = .ok (some ()))
    (hclone : env.cloneRes = .err m)
    (hfresh : ∀ r ∈ store, r.id ≠ nextId) :
    (mirror env store nextId).restoreInvoked = false
    ∧ (mirror env store nextId).exitCode ≠ 0
    ∧ ∃ r, get_backup (mirror env store nextId).history nextId = some r
        ∧ r.status = some "hooks_failed"
        ∧ r.extra = some [("error", JVal.jstr m)] := by
  have hne : ¬((some "hooks_failed" : Option String) = none
      ∧ (some [("error", JVal.jstr m)] : Option (List (String × JVal))) = none) := by simp
  have hred : mirror env store nextId =
      applyFinally (some path)
        { exitCode := 1, uncaughtExn := none, fetchInvoked := true,
          cloneInvoked := true, probeInvoked := false, restoreInvoked := false,
          cleanupInvoked := false, backupCreated := false, backupFileExists := false,
          targetDatabase := env.sourceDb,
          history := (update_backup (store ++ [createdRow env nextId path]) nextId
            (some "hooks_failed") (some [("error", JVal.jstr m)])).1,
          recordId := some nextId } := by
    unfold mirror mirrorBody hooksPhase
    rw [hb, hk, hrec, hfetch, hclone]
    rfl
  rw [hred]
  refine ⟨rfl, by simp [applyFinally], ?_⟩
  refine ⟨applyUpdate (some "hooks_failed") (some [("error", JVal.jstr m)])
    (createdRow env nextId path), ?_, rfl, rfl⟩
  show get_backup (update_backup (store ++ [createdRow env nextId path]) nextId
      (some "hooks_failed") (some [("error", JVal.jstr m)])).1 nextId = _
  rw [get_backup_update _ _ _ _ hne,
    get_backup_append_fresh store (createdRow env nextId path) nextId rfl hfresh]
  rfl

/-- The `finally` wrapper only touches the cleanup-related fields. -/
theorem applyFinally_preserves (bf : Option String) (r : MirrorResult) :
    (applyFinally bf r).probeInvoked = r.probeInvoked
    ∧ (applyFinally bf r).restoreInvoked = r.restoreInvoked
    ∧ (applyFinally bf r).targetDatabase = r.targetDatabase
    ∧ (applyFinally bf r).history = r.history
    ∧ (applyFinally bf r).exitCode = r.exitCode := by
  cases bf <;> simp [applyFinally]

/-- C4: on every exit path of the workflow, the backup-artifact cleanup runs
exactly when an artifact was created, and the backup file does not exist on
disk after the workflow returns. -/
theorem C4_cleanup_on_every_path (env : Env) (store : List BackupRecord)
    (nextId : Nat) :
    (mirror env store nextId).cleanupInvoked = (mirror env store nextId).backupCreated
    ∧ (mirror env store nextId).backupFileExists = false := by
  unfold mirror
  cases env.backupRes <;> simp [applyFinally]

/-- When the hooks section does not abort, the workflow goes on to probe the
target, restores whenever target preparation succeeds, and carries the hooks
section's target name and ledger. -/
theorem mirrorBody_after_hooks (env : Env) (store : List BackupRecord)
    (nextId : Nat) (path : String)
    (h : (hooksPhase env (extrair_id_assinatura_do_nome_banco env.sourceDb)
        store nextId path).hooksOk = true) :
    (mirrorBody env store nextId path).probeInvoked = true
    ∧ (targetPrepSucceeds env = true →
        (mirrorBody env store nextId path).restoreInvoked = true)
    ∧ (mirrorBody env store nextId path).targetDatabase
        = (hooksPhase env (extrair_id_assinatura_do_nome_banco env.sourceDb)
            store nextId path).target
    ∧ (mirrorBody env store nextId path).history
        = (hooksPhase env (extrair_id_assinatura_do_nome_banco env.sourceDb)
            store nextId path).ledger := by
  unfold mirrorBody
  simp only [h]
  cases hex : env.existsRes with
  | err m =>
    simp only [hex]
    refine ⟨rfl, ?_, rfl, rfl⟩
    intro htp
    obtain ⟨b, hexb, _⟩ := prep_of_targetPrepSucceeds env htp
    rw [hex] at hexb
    exact Res.noConfusion hexb
  | ok b =>
    simp only [hex]
    cases hp : prepRes env b with
    | err m =>
      simp only [hp]
      refine ⟨rfl, ?_, rfl, rfl⟩
      intro htp
      obtain ⟨b2, hexb, hpb⟩ := prep_of_targetPrepSucceeds env htp
      rw [hex] at hexb
      cases hexb
      rw [hp] at hpb
      exact Res.noConfusion hpb
    | ok u =>
      cases u
      simp only [hp]
      by_cases hs : (!env.restoreRaises
          && restore_backup_result env.restoreStderr env.restoreExit) = true
      · simp [hs]
      · simp [hs]

/-- C5: if a correlation key was resolved and the fetch step returns an empty
result without raising, the audit record's status becomes `hooks_skipped`, the
restore target stays the original source database name, and the workflow
continues to target preparation (and to restore whenever preparation
succeeds) instead of aborting. -/
theorem C5_empty_fetch_skips_and_continues (env : Env) (store : List BackupRecord)
    (nextId : Nat) (k path : String)
    (hk : extrair_id_assinatura_do_nome_banco env.sourceDb = some k)
    (hb : env.backupRes = .ok path)
    (hrec : env.recordRes = .ok ())
    (hfetch : env.fetchRes = .ok none)
    (hfresh : ∀ r ∈ store, r.id ≠ nextId) :
    (mirror env store nextId).targetDatabase = env.sourceDb
    ∧ (∃ r, get_backup (mirror env store nextId).history nextId = some r
        ∧ r.status = some "hooks_skipped")
    ∧ (mirror env store nextId).probeInvoked = true
    ∧ (targetPrepSucceeds env = true →
        (mirror env store nextId).restoreInvoked = true) := by
  have hmm : mirror env store nextId
      = applyFinally (some path) (mirrorBody env store nextId path) := by
    unfold mirror
    rw [hb]
  have hhooks : hooksPhase env (extrair_id_assinatura_do_nome_banco env.sourceDb)
      store nextId path =
      { ledger := (update_backup (store ++ [createdRow env nextId path]) nextId
          (some "hooks_skipped") none).1,
        recordId := some nextId, hooksOk := true, target := env.sourceDb,
        fetchInvoked := true, cloneInvoked := false } := by
    unfold hooksPhase
    rw [hk, hrec, hfetch]
    rfl
  obtain ⟨hp1, hp2, hp3, hp4⟩ := mirrorBody_after_hooks env store nextId path
    (by rw [hhooks])
  refine ⟨?_, ?_, ?_, ?_⟩
  · rw [hmm, (applyFinally_preserves _ _).2.2.1, hp3, hhooks]
  · rw [hmm, (applyFinally_preserves _ _).2.2.2.1, hp4, hhooks]
    refine ⟨applyUpdate (some "hooks_skipped") none (createdRow env nextId path),
      ?_, rfl⟩
    show get_backup (update_backup (store ++ [createdRow env nextId path]) nextId
        (some "hooks_skipped") none).1 nextId = _
    rw [get_backup_update _ _ _ _ (by simp),
      get_backup_append_fresh store (createdRow env nextId path) nextId rfl hfresh]
    rfl
  · rw [hmm, (applyFinally_preserves _ _).1, hp1]
  · intro htp
    rw [hmm, (applyFinally_preserves _ _).2.1, hp2 htp]

/-- C6: if creating the audit record raises, the workflow continues to target
preparation and restore when no correlation key was resolved, but aborts with
a nonzero exit status before target preparation and restore when a key was
resolved. -/
theorem C6_audit_failure (env : Env) (store : List BackupRecord) (nextId : Nat)
    (path m : String)
    (hb : env.backupRes = .ok path)
    (hrec : env.recordRes = .err m) :
    (extrair_id_assinatura_do_nome_banco env.sourceDb = none →
      (mirror env store nextId).probeInvoked = true
      ∧ (targetPrepSucceeds env = true →
          (mirror env store nextId).restoreInvoked = true))
    ∧ (∀ k, extrair_id_assinatura_do_nome_banco env.sourceDb = some k →
        (mirror env store nextId).exitCode ≠ 0
        ∧ (mirror env store nextId).probeInvoked = false
        ∧ (mirror env store nextId).restoreInvoked = false) := by
  have hmm : mirror env store nextId
      = applyFinally (some path) (mirrorBody env store nextId path) := by
    unfold mirror
    rw [hb]
  constructor
  · intro hnone
    have hho : (hooksPhase env (extrair_id_assinatura_do_nome_banco env.sourceDb)
        store nextId path).hooksOk = true := by
      unfold hooksPhase
      rw [hrec, hnone]
      rfl
    obtain ⟨hp1, hp2, _, _⟩ := mirrorBody_after_hooks env store nextId path hho
    exact ⟨by rw [hmm, (applyFinally_preserves _ _).1, hp1],
      fun htp => by rw [hmm, (applyFinally_preserves _ _).2.1, hp2 htp]⟩
  · intro k hk
    have hbody : mirrorBody env store nextId path =
        { exitCode := 1, uncaughtExn := none, fetchInvoked := false,
          cloneInvoked := false, probeInvoked := false, restoreInvoked := false,
          cleanupInvoked := false, backupCreated := false, backupFileExists := false,
          targetDatabase := env.sourceDb, history := store, recordId := none } := by
      unfold mirrorBody hooksPhase
      rw [hk, hrec]
      rfl
    refine ⟨?_, ?_, ?_⟩ <;> rw [hmm, hbody] <;> simp [applyFinally]

/-- C3 (witness): the C3 theorem at a concrete environment whose clone call
raises `boom`. -/
theorem C3_clone_failure_blocks_restore_witness :
    (mirror envCloneFails [] 1).restoreInvoked = false
    ∧ (mirror envCloneFails [] 1).exitCode ≠ 0
    ∧ ∃ r, get_backup (mirror envCloneFails [] 1).history 1 = some r
        ∧ r.status = some "hooks_failed"
        ∧ r.extra = some [("error", JVal.jstr "boom")] :=
  C3_clone_failure_blocks_restore envCloneFails [] 1 "123" "/tmp/b.dump" "boom"
    (by decide) rfl rfl rfl rfl (by simp)

/-- C5 (witness): the C5 theorem at a concrete environment whose fetch call
returns empty. -/
theorem C5_empty_fetch_skips_and_continues_witness :
    (mirror envFetchEmpty [] 1).targetDatabase = envFetchEmpty.sourceDb
    ∧ (∃ r, get_backup (mirror envFetchEmpty [] 1).history 1 = some r
        ∧ r.status = some "hooks_skipped")
    ∧ (mirror envFetchEmpty [] 1).probeInvoked = true
    ∧ (targetPrepSucceeds envFetchEmpty = true →
        (mirror envFetchEmpty [] 1).restoreInvoked = true) :=
  C5_empty_fetch_skips_and_continues envFetchEmpty [] 1 "123" "/tmp/b.dump"
    (by decide) rfl rfl rfl (by simp)

/-- C6 (witness): the C6 theorem at two concrete environments whose
audit-record creation raises — one without a correlation key (workflow
continues and restores), one with (workflow aborts before probing). -/
theorem C6_audit_failure_witness :
    ((mirror envAuditFailNoKey [] 1).probeInvoked = true
      ∧ (mirror envAuditFailNoKey [] 1).restoreInvoked = true)
    ∧ ((mirror envAuditFailKey [] 1).exitCode ≠ 0
      ∧ (mirror envAuditFailKey [] 1).probeInvoked = false
      ∧ (mirror envAuditFailKey [] 1).restoreInvoked = false) := by
  constructor
  · have h := (C6_audit_failure envAuditFailNoKey [] 1 "/tmp/b.dump" "sqlite locked"
      rfl rfl).1 (by decide)
    exact ⟨h.1, h.2 (by decide)⟩
  · exact (C6_audit_failure envAuditFailKey [] 1 "/tmp/b.dump" "sqlite locked"
      rfl rfl).2 "123" (by decide)
